import Mathlib

/-!
Verification of the HEOR-Signal news-aggregation pipeline
(`src/server/services/langgraph_agents.py`) against its specification.

Shallow embedding conventions:
* Python floats (relevance scores) are modelled as exact rationals (`Rat`);
  the operations used on them (min, max, comparisons, stable sort) agree
  with IEEE semantics on the non-NaN values that occur here.
* Timestamps are modelled as integers counting days; `datetime.now()` is the
  explicit parameter `now`, `timedelta(days=365)` is the literal `365`.
* The external `dateutil` date parser is modelled as an explicit function
  parameter `parseDate : String -> Option Int` (it is third-party code, not
  part of this repository).
* The text-completion oracle (`self.llm.ainvoke`) and the outcome of
  `json.loads` on its reply are modelled as explicit parameters: an oracle
  call either raises (`Except.error`) or returns content together with its
  parse outcome.  A JSON value that is an array is abstracted by its list of
  elements (the code only ever uses the parsed value as a list of query
  strings); any successfully parsed non-array value is `jsonOther`.
* Python string slicing `s[:n]`, `s.lower()` and `s.title()` are modelled
  on the code-point list `String.data`.
* The stable Python list sort (`list.sort(key=..., reverse=True)`) is
  modelled by `List.insertionSort` with the relation `scoreDesc`; both are
  stable sorts of a total preorder, hence produce the same output.
-/

/-- Embedding of the Python enum `AgentCategory`. -/
inductive AgentCategory where
  | REGULATORY
  | CLINICAL
  | MARKET_ACCESS
  | RWE_PUBLIC_HEALTH
deriving DecidableEq, Repr

/-- Embedding of `AgentCategory.value` (the string carried by each enum member). -/
def AgentCategory.value : AgentCategory → String
  | .REGULATORY => "regulatory"
  | .CLINICAL => "clinical"
  | .MARKET_ACCESS => "market"
  | .RWE_PUBLIC_HEALTH => "rwe"

/-- Embedding of the dataclass `UserPreferences`. -/
structure UserPreferences where
  expertise_areas : List String
  therapeutic_areas : List String
  regions : List String
  keywords : List String
  news_recency_days : Int := 7
deriving DecidableEq, Repr

/-- Embedding of the dataclass `NewsItem`.  `relevance_score` is a float in
the source, modelled as an exact rational. -/
structure NewsItem where
  id : String
  title : String
  snippet : String
  source : String
  date : String
  category : String
  url : String
  relevance_score : Rat
  is_new : Bool := true
deriving DecidableEq, Repr

/-- Embedding of the pydantic model `AgentState`. -/
structure AgentState where
  user_preferences : UserPreferences
  category : AgentCategory
  news_items : List NewsItem := []
  search_queries : List String := []
  processing_status : String := "pending"
  error_message : Option String := none
deriving DecidableEq, Repr

/-- Python `s.lower()[:50]` on a title, the first duplicate key of
`_deduplicate_news_items`, computed on the code-point list. -/
def titleKey (item : NewsItem) : List Char :=
  (item.title.data.map Char.toLower).take 50

/-- Python `item.id.startswith(("nih_", "ctdata_"))`, computed on the
code-point lists. -/
def isRegistryId (s : String) : Bool :=
  "nih_".data.isPrefixOf s.data || "ctdata_".data.isPrefixOf s.data

/-- Splits a code-point list at its first underscore, returning the parts
before and after it, or `none` when no underscore occurs.  This captures
both Python idioms used on ids and agent keys: `s.split("_", 1)` and
`s.split("_")[0]`. -/
def splitAtFirstUnderscore : List Char → Option (List Char × List Char)
  | [] => none
  | c :: cs =>
    if c = '_' then some ([], cs)
    else
      match splitAtFirstUnderscore cs with
      | none => none
      | some (l, r) => some (c :: l, r)

/-- Python `item.id.split("_", 1)[1] if "_" in item.id else item.id`:
everything after the first underscore, or the whole string when it has no
underscore. -/
def stripSourceKind (s : String) : String :=
  match splitAtFirstUnderscore s.data with
  | none => s
  | some (_, r) => String.mk r

/-- Descending order on relevance scores; `scoreDesc a b` holds when the
score of `a` is at least the score of `b`.  Sorting a list with this
relation using a stable sort models the Python call
`items.sort(key=lambda x: x.relevance_score, reverse=True)`. -/
def scoreDesc (a b : NewsItem) : Prop :=
  b.relevance_score ≤ a.relevance_score

instance : DecidableRel scoreDesc :=
  fun a b => inferInstanceAs (Decidable (b.relevance_score ≤ a.relevance_score))

instance : IsTotal NewsItem scoreDesc :=
  ⟨fun a b => le_total b.relevance_score a.relevance_score⟩

instance : IsTrans NewsItem scoreDesc :=
  ⟨fun _ _ _ hab hbc => le_trans hbc hab⟩

/-- Embedding of `LangGraphNewsAgents._validate_and_filter_dates`.  Each item
is kept unchanged when its date parses into the trailing 365-day window,
dropped when it parses outside the window, and kept with its date replaced
by the sentinel `"Date not found"` when the date string is empty or fails
to parse. -/
def validate_and_filter_dates (parseDate : String → Option Int) (now : Int) :
    List NewsItem → List NewsItem
  | [] => []
  | item :: rest =>
    let tail := validate_and_filter_dates parseDate now rest
    if item.date = "" then
      { item with date := "Date not found" } :: tail
    else
      match parseDate item.date with
      | none => { item with date := "Date not found" } :: tail
      | some d => if now - 365 ≤ d ∧ d ≤ now then item :: tail else tail

/-- Embedding of the duplicate-removal loop of
`LangGraphNewsAgents._deduplicate_news_items`: the Python sets
`seen_nct_ids` and `seen_titles` are threaded as lists, and an item is
appended exactly when its registry identifier (for `nih_`/`ctdata_` ids)
and its title key are both unseen; a registry item reserves its identifier
even when it is subsequently skipped as a title duplicate. -/
def dedup_loop : List NewsItem → List String → List (List Char) → List NewsItem
  | [], _, _ => []
  | item :: rest, seen_nct_ids, seen_titles =>
    if isRegistryId item.id then
      if stripSourceKind item.id ∈ seen_nct_ids then
        dedup_loop rest seen_nct_ids seen_titles
      else if titleKey item ∈ seen_titles then
        dedup_loop rest (stripSourceKind item.id :: seen_nct_ids) seen_titles
      else
        item :: dedup_loop rest (stripSourceKind item.id :: seen_nct_ids)
          (titleKey item :: seen_titles)
    else
      if titleKey item ∈ seen_titles then
        dedup_loop rest seen_nct_ids seen_titles
      else
        item :: dedup_loop rest seen_nct_ids (titleKey item :: seen_titles)

/-- Embedding of `LangGraphNewsAgents._deduplicate_news_items`: date
sanitation, duplicate removal, stable sort by descending relevance score,
truncation to the top 10. -/
def deduplicate_news_items (parseDate : String → Option Int) (now : Int)
    (items : List NewsItem) : List NewsItem :=
  let dated := validate_and_filter_dates parseDate now items
  let unique_items := dedup_loop dated [] []
  (unique_items.insertionSort scoreDesc).take 10

/-- Outcome of `json.loads(response.content)` inside the query generator:
a JSON array (abstracted by its list of string elements), some other
successfully parsed JSON value, or a parse failure. -/
inductive JsonOutcome where
  | jsonArray (elements : List String)
  | jsonOther
  | jsonFail
deriving DecidableEq, Repr

/-- Embedding of the deterministic fallback queries built in the `except`
branch of the query generator returned by `_create_query_generator`. -/
def fallback_queries (domain user_expertise : String) : List String :=
  [domain ++ " " ++ user_expertise,
   domain ++ " updates " ++ user_expertise,
   domain ++ " news " ++ user_expertise,
   domain ++ " research " ++ user_expertise]

/-- Embedding of the closure `generate_queries` produced by
`LangGraphNewsAgents._create_query_generator(domain)`.  The oracle argument
carries the outcome of `self.llm.ainvoke` (which is outside the
`try` block, so an oracle exception propagates) together with the
`json.loads` outcome on its content: a parsed array is stored as-is, a
parsed non-array value yields the singleton `[response.content]`, and only
a parse failure triggers the deterministic fallback. -/
def generate_queries (domain : String) (prefs : UserPreferences)
    (oracle : Except String (String × JsonOutcome)) : Except String (List String) :=
  let user_expertise := prefs.expertise_areas.headD "healthcare"
  match oracle with
  | .error e => .error e
  | .ok (content, parsed) =>
    match parsed with
    | .jsonArray elements => .ok elements
    | .jsonOther => .ok [content]
    | .jsonFail => .ok (fallback_queries domain user_expertise)

/-- Python `max(0.0, min(1.0, score))` from `_filter_relevance_generic`. -/
def clampScore (score : Rat) : Rat :=
  max 0 (min 1 score)

/-- Embedding of the per-item loop of
`LangGraphNewsAgents._filter_relevance_generic` over (a slice of) the news
items, also counting the oracle invocations.  The oracle argument models
`self.llm.ainvoke` on the per-item scoring prompt followed by
`float(response.content.strip())`: `Except.error` is an exception escaping
the outer `try` (the item is skipped), `Except.ok none` is a response whose
float parse fails (default score 0.5), and `Except.ok (some s)` is a parsed
float (clamped to the unit interval).  Every processed item incurs exactly
one oracle call; an item is retained exactly when its new score reaches the
0.4 threshold. -/
def parsed_score : Option Rat → Rat
  | some s => clampScore s
  | none => Rat.divInt 1 2

/-- Per-item loop of `_filter_relevance_generic` (see `parsed_score` for
the oracle conventions): the retained, rescored items paired with the
number of oracle calls issued. -/
def score_loop (oracle : NewsItem → Except String (Option Rat)) :
    List NewsItem → List NewsItem × Nat
  | [] => ([], 0)
  | item :: rest =>
    match oracle item with
    | .error _ => ((score_loop oracle rest).1, (score_loop oracle rest).2 + 1)
    | .ok parsed =>
      (if Rat.divInt 2 5 ≤ parsed_score parsed then
        { item with relevance_score := parsed_score parsed } :: (score_loop oracle rest).1
       else (score_loop oracle rest).1,
       (score_loop oracle rest).2 + 1)

/-- Embedding of `LangGraphNewsAgents._filter_relevance_generic`: early
return on an empty item list, per-item oracle scoring of the first 20 items,
stable sort by descending score, truncation to the top 10. -/
def filter_relevance_generic (oracle : NewsItem → Except String (Option Rat))
    (items : List NewsItem) : List NewsItem :=
  if items = [] then items
  else ((score_loop oracle (items.take 20)).1.insertionSort scoreDesc).take 10

/-- Number of `self.llm.ainvoke` scoring calls issued by
`_filter_relevance_generic` on the given item list: one per processed item
of the `state.news_items[:20]` slice, none on the empty-list early return. -/
def relevance_oracle_calls (oracle : NewsItem → Except String (Option Rat))
    (items : List NewsItem) : Nat :=
  if items = [] then 0
  else (score_loop oracle (items.take 20)).2

/-- Python `s[:n]` on a string, modelled on the code-point list. -/
def pySlice (s : String) (n : Nat) : String :=
  String.mk (s.data.take n)

/-- Helper for `pyTitle`: the Boolean argument records whether the previous
character was alphabetic. -/
def pyTitleAux : List Char → Bool → List Char
  | [], _ => []
  | c :: cs, prevAlpha =>
    (if c.isAlpha then (if prevAlpha then c.toLower else c.toUpper) else c) ::
      pyTitleAux cs c.isAlpha

/-- Python `s.title()` (ASCII-level): the first letter of every alphabetic
run is uppercased and the rest lowercased. -/
def pyTitle (s : String) : String :=
  String.mk (pyTitleAux s.data false)

/-- Raw hit of the general web-search adapter (`news_results` entry of the
SERP response).  The `link` field is accessed unconditionally in the source
(`hash(item["link"])`) and is therefore required; the other fields are read
with `item.get(..., default)` and are modelled as optional. -/
structure SerpRawItem where
  title : Option String
  snippet : Option String
  source : Option String
  date : Option String
  link : String
deriving DecidableEq, Repr

/-- Embedding of the `NewsItem` construction inside
`LangGraphNewsAgents._search_with_serp_api`.  The Python builtin `hash` on
the link string is modelled by the explicit parameter `hashFn`; `now_iso`
stands for `datetime.now().isoformat()`, the default used when the raw hit
has no date. -/
def serp_news_item (hashFn : String → Int) (domain : String) (category : AgentCategory)
    (now_iso : String) (item : SerpRawItem) : NewsItem :=
  { id := domain ++ "_serp_" ++ toString (hashFn item.link),
    title := item.title.getD "",
    snippet := item.snippet.getD "",
    source := item.source.getD "",
    date := item.date.getD now_iso,
    category := category.value,
    url := item.link,
    relevance_score := Rat.divInt 7 10 }

/-- Raw study record of the registry API variant A
(`_search_with_nih_api`); the nested `.get(..., "")` chains on the protocol
section are modelled as optional strings defaulted to the empty string. -/
structure NihStudy where
  nctId : Option String
  briefTitle : Option String
  briefSummary : Option String
  startDate : Option String
deriving DecidableEq, Repr

/-- Embedding of the `NewsItem` construction inside
`LangGraphNewsAgents._search_with_nih_api`: the snippet is the brief
summary truncated to 300 characters (empty when the summary is missing). -/
def nih_news_item (domain : String) (category : AgentCategory) (study : NihStudy) : NewsItem :=
  let nct_id := study.nctId.getD ""
  let title := study.briefTitle.getD ""
  let summary := study.briefSummary.getD ""
  let start_date := study.startDate.getD ""
  { id := "nih_" ++ nct_id,
    title := title ++ " (" ++ pyTitle domain ++ ")",
    snippet := if summary = "" then "" else pySlice summary 300,
    source := "ClinicalTrials.gov NIH API",
    date := start_date,
    category := category.value,
    url := "https://clinicaltrials.gov/study/" ++ nct_id,
    relevance_score := Rat.divInt 9 10 }

/-- Raw study record of the registry API variant B
(`_search_with_clinical_data_api`); the list-wrapped fields
(`study.get("NCTId", [""])[0] if study.get("NCTId") else ""`) are modelled
as optional strings defaulted to the empty string. -/
structure ClinicalDataStudy where
  nctId : Option String
  briefTitle : Option String
  briefSummary : Option String
  overallStatus : Option String
  startDate : Option String
deriving DecidableEq, Repr

/-- Trial-status allow-list of `_search_with_clinical_data_api`. -/
def allowed_statuses : List String :=
  ["Recruiting", "Active, not recruiting", "Completed", "Enrolling by invitation"]

/-- Embedding of the `NewsItem` construction inside
`LangGraphNewsAgents._search_with_clinical_data_api`: studies outside the
status allow-list produce no item; the snippet is the truncated summary or
the literal fallback `"Clinical trial status: " ++ status`. -/
def ctdata_news_item (domain : String) (category : AgentCategory) (now_iso : String)
    (study : ClinicalDataStudy) : Option NewsItem :=
  let nct_id := study.nctId.getD ""
  let title := study.briefTitle.getD ""
  let summary := study.briefSummary.getD ""
  let status := study.overallStatus.getD ""
  let start_date := study.startDate.getD ""
  if status ∈ allowed_statuses then
    some
      { id := "ctdata_" ++ nct_id,
        title := title ++ " (" ++ status ++ ") - " ++ pyTitle domain,
        snippet := if summary = "" then "Clinical trial status: " ++ status
                   else pySlice summary 300,
        source := "ClinicalTrials.gov Data API",
        date := if start_date = "" then now_iso else start_date,
        category := category.value,
        url := "https://clinicaltrials.gov/study/" ++ nct_id,
        relevance_score := Rat.divInt 17 20 }
  else none

/-- The keys of the `self.sub_agents` dictionary, in insertion order. -/
def sub_agent_keys : List String :=
  ["regulatory_serp", "regulatory_nih", "regulatory_clinical_data",
   "clinical_serp", "clinical_nih", "clinical_clinical_data",
   "market_serp", "market_nih", "market_clinical_data",
   "rwe_serp", "rwe_nih", "rwe_clinical_data"]

/-- Python `agent_key.split("_")[0]`, the domain extracted from a sub-agent
key inside `run_parallel_agents`: the characters before the first
underscore, or the whole key when it has none. -/
def domainOfKey (agent_key : String) : String :=
  match splitAtFirstUnderscore agent_key.data with
  | none => agent_key
  | some (l, _) => String.mk l

/-- Embedding of `LangGraphNewsAgents._get_category_enum` (dictionary
lookup with default `REGULATORY`). -/
def get_category_enum (domain : String) : AgentCategory :=
  if domain = "regulatory" then .REGULATORY
  else if domain = "clinical" then .CLINICAL
  else if domain = "market" then .MARKET_ACCESS
  else if domain = "rwe" then .RWE_PUBLIC_HEALTH
  else .REGULATORY

/-- The initial `AgentState` built in `run_parallel_agents` for one
sub-agent key (all other fields take their declared defaults). -/
def initial_agent_state (prefs : UserPreferences) (agent_key : String) : AgentState :=
  { user_preferences := prefs, category := get_category_enum (domainOfKey agent_key) }

/-- Embedding of `LangGraphNewsAgents._run_single_agent`: the outcome of
`agent.ainvoke` is the explicit `ainvoke` argument; on an exception the
initial state is returned with an error status and message, so this
function is total. -/
def run_single_agent (ainvoke : Except String AgentState) (initial_state : AgentState) :
    AgentState :=
  match ainvoke with
  | .ok result => result
  | .error e =>
    { initial_state with processing_status := "error", error_message := some e }

/-- The per-sub-agent settled results of `run_parallel_agents`: each of the
12 sub-agent keys paired with the news items of the state returned by
`_run_single_agent` for it.  Because `_run_single_agent` catches every
exception, the `isinstance(result, Exception)` branch of the source is
unreachable and the `asyncio.gather` results are always states. -/
def agent_results (ainvoke : String → Except String AgentState) (prefs : UserPreferences) :
    List (String × List NewsItem) :=
  sub_agent_keys.map fun agent_key =>
    (agent_key,
     (run_single_agent (ainvoke agent_key) (initial_agent_state prefs agent_key)).news_items)

/-- The value stored under one domain key of the dictionary returned by
`run_parallel_agents`: the concatenation, in sub-agent order, of the news
items of the sub-agents whose key belongs to the domain, deduplicated by
`_deduplicate_news_items`. -/
def domain_result (ainvoke : String → Except String AgentState) (prefs : UserPreferences)
    (parseDate : String → Option Int) (now : Int) (domain : String) : List NewsItem :=
  deduplicate_news_items parseDate now
    (((agent_results ainvoke prefs).filter fun p => domainOfKey p.1 == domain).flatMap Prod.snd)

/-- Embedding of `LangGraphNewsAgents.run_parallel_agents`: the returned
dictionary, as an association list whose keys are, in insertion order,
exactly the four domain keys. -/
def run_parallel_agents (ainvoke : String → Except String AgentState)
    (prefs : UserPreferences) (parseDate : String → Option Int) (now : Int) :
    List (String × List NewsItem) :=
  ["regulatory", "clinical", "market", "rwe"].map fun domain =>
    (domain, domain_result ainvoke prefs parseDate now domain)

/-- Point update of an ainvoke assignment: the sub-agent at `agent_key` is
given the outcome `v`, all other sub-agents are unchanged.  Used to state
failure-isolation of the parallel aggregator. -/
def override (ainvoke : String → Except String AgentState) (agent_key : String)
    (v : Except String AgentState) : String → Except String AgentState :=
  fun j => if j = agent_key then v else ainvoke j

/-- Concrete stand-in for the external `dateutil` parser, used to witness
the date-dependent theorems on explicit inputs: a non-empty all-digit
string denotes that day number, anything else fails to parse (in
particular the sentinel `"Date not found"` fails to parse, as it does
under `dateutil`). -/
def parseDateModel (s : String) : Option Int :=
  if s.data ≠ [] ∧ s.data.all Char.isDigit then
    some (Int.ofNat (s.data.foldl (fun n c => 10 * n + (c.toNat - 48)) 0))
  else
    none

/-! ## Supporting lemmas -/

theorem parsed_score_le_one (p : Option Rat) : parsed_score p ≤ 1 := by
  cases p with
  | none => norm_num [parsed_score, Rat.divInt_eq_div]
  | some s =>
    simp only [parsed_score, clampScore]
    exact max_le (by norm_num) (min_le_left 1 s)

theorem score_loop_mem_bounds (oracle : NewsItem → Except String (Option Rat)) :
    ∀ (l : List NewsItem) (it : NewsItem), it ∈ (score_loop oracle l).1 →
      Rat.divInt 2 5 ≤ it.relevance_score ∧ it.relevance_score ≤ 1 := by
  intro l
  induction l with
  | nil => intro it h; simp [score_loop] at h
  | cons item rest ih =>
    intro it h
    cases horacle : oracle item with
    | error e =>
      simp only [score_loop, horacle] at h
      exact ih it h
    | ok parsed =>
      simp only [score_loop, horacle] at h
      by_cases hth : Rat.divInt 2 5 ≤ parsed_score parsed
      · rw [if_pos hth] at h
        rcases List.mem_cons.mp h with hq | hq
        · subst hq
          exact ⟨hth, parsed_score_le_one parsed⟩
        · exact ih it hq
      · rw [if_neg hth] at h
        exact ih it h

theorem score_loop_calls (oracle : NewsItem → Except String (Option Rat)) :
    ∀ l : List NewsItem, (score_loop oracle l).2 = l.length := by
  intro l
  induction l with
  | nil => rfl
  | cons item rest ih =>
    cases horacle : oracle item with
    | error e => simp only [score_loop, horacle, List.length_cons, ih]
    | ok parsed => simp only [score_loop, horacle, List.length_cons, ih]

theorem filter_relevance_mem_score_loop (oracle : NewsItem → Except String (Option Rat))
    (items : List NewsItem) (it : NewsItem) (h : it ∈ filter_relevance_generic oracle items) :
    it ∈ (score_loop oracle (items.take 20)).1 := by
  unfold filter_relevance_generic at h
  split at h
  · rename_i hnil
    rw [hnil] at h
    exact absurd h (List.not_mem_nil it)
  · exact (List.perm_insertionSort scoreDesc _).subset (List.take_subset 10 _ h)

/-! ## Concrete fixtures used by witnesses and counterexamples -/

/-- A general-web item whose title and snippet share no term with any
profile keyword or expertise phrase and whose source is not a registry or
regulatory body. -/
def unknownBlogItem : NewsItem :=
  { id := "regulatory_serp_41",
    title := "Celebrity chef opens a new downtown restaurant",
    snippet := "A lifestyle piece about dining trends, with no medical content.",
    source := "unknown-blog",
    date := "900",
    category := "regulatory",
    url := "https://unknown-blog.example/post/41",
    relevance_score := Rat.divInt 7 10 }

/-- An oracle stub whose every call raises. -/
def downOracle : NewsItem → Except String (Option Rat) :=
  fun _ => Except.error "oracle unavailable"

/-- An oracle stub whose reply always parses to the float 0.9. -/
def pointNineOracle : NewsItem → Except String (Option Rat) :=
  fun _ => Except.ok (some (Rat.divInt 9 10))

/-- An oracle stub whose reply never parses to a float, triggering the
default score 0.5. -/
def unparsableOracle : NewsItem → Except String (Option Rat) :=
  fun _ => Except.ok none

/-- Sample profile from the specification scenarios. -/
def samplePrefs : UserPreferences :=
  { expertise_areas := ["pediatric oncology"],
    therapeutic_areas := ["pediatric oncology"],
    regions := ["US"],
    keywords := ["regulatory"] }

/-- Market item dated day 100, used to exhibit tie-breaking. -/
def tieOlder : NewsItem :=
  { id := "market_serp_1",
    title := "Payer coverage decision, outlet A",
    snippet := "coverage details",
    source := "Outlet A",
    date := "100",
    category := "market",
    url := "https://a.example/1",
    relevance_score := Rat.divInt 7 10 }

/-- Market item dated day 200 (more recent than `tieOlder`). -/
def tieNewer : NewsItem :=
  { id := "market_serp_2",
    title := "Payer coverage decision, outlet B",
    snippet := "coverage details",
    source := "Outlet B",
    date := "200",
    category := "market",
    url := "https://b.example/2",
    relevance_score := Rat.divInt 7 10 }

/-! ## Claim C3: relevance pre-filter -/

/-- Claim C3 counterexample: there is no pre-filter phase.  The concrete
item matches zero profile keywords and its source is the untrusted
`"unknown-blog"`, yet running the relevance step on the singleton list
issues exactly one oracle scoring call, where the claim demands zero. -/
theorem C3_counterexample_oracle_called_for_unmatched_item :
    relevance_oracle_calls downOracle [unknownBlogItem] = 1 ∧
      unknownBlogItem.source = "unknown-blog" :=
  ⟨by decide, rfl⟩

/-- Claim C3 (amended): `_filter_relevance_generic` has no keyword or
trusted-source pre-filter; every item of the `[:20]` slice receives exactly
one oracle call regardless of its text or source, so the number of oracle
calls equals `min n 20` for an n-item list — bounded by the slice, not by
pre-filter survivors. -/
theorem C3_amended_oracle_calls_eq_min_20 (oracle : NewsItem → Except String (Option Rat))
    (items : List NewsItem) :
    relevance_oracle_calls oracle items = min items.length 20 := by
  unfold relevance_oracle_calls
  split
  · rename_i hnil
    rw [hnil]
    rfl
  · rw [score_loop_calls, List.length_take, Nat.min_comm]

/-! ## Claim C7: scores stay in the unit interval -/

/-- Claim C7: after the relevance-scoring step every item of the resulting
list has a relevance score inside the unit interval, both when the oracle
reply parses to a float (clamped via `max(0.0, min(1.0, score))`) and when
parsing fails (fixed default 0.5). -/
theorem C7_scores_in_unit_interval (oracle : NewsItem → Except String (Option Rat))
    (items : List NewsItem) (it : NewsItem)
    (h : it ∈ filter_relevance_generic oracle items) :
    0 ≤ it.relevance_score ∧ it.relevance_score ≤ 1 := by
  have hb := score_loop_mem_bounds oracle (items.take 20) it
    (filter_relevance_mem_score_loop oracle items it h)
  exact ⟨le_trans (by norm_num) hb.1, hb.2⟩

/-- Witness for C7 at a concrete input: the rescored sample item is in the
output and its score lies in the unit interval. -/
theorem C7_witness :
    ({ unknownBlogItem with relevance_score := Rat.divInt 9 10 } ∈
        filter_relevance_generic pointNineOracle [unknownBlogItem]) ∧
      (0 ≤ ({ unknownBlogItem with relevance_score := Rat.divInt 9 10 } : NewsItem).relevance_score ∧
        ({ unknownBlogItem with relevance_score := Rat.divInt 9 10 } : NewsItem).relevance_score ≤ 1) :=
  ⟨by decide, C7_scores_in_unit_interval pointNineOracle [unknownBlogItem] _ (by decide)⟩

/-! ## Claim C8: threshold, ordering, truncation -/

/-- Claim C8 counterexample: ties are not broken by a recency heuristic.
Both items get the same default score 0.5 and `tieNewer` is strictly more
recent, yet the output keeps plain input order with the older item first
(the Python sort is stable on the single key `relevance_score`; no
secondary recency key exists). -/
theorem C8_counterexample_ties_keep_input_order :
    filter_relevance_generic unparsableOracle [tieOlder, tieNewer] =
        [{ tieOlder with relevance_score := Rat.divInt 1 2 },
         { tieNewer with relevance_score := Rat.divInt 1 2 }] ∧
      parseDateModel tieOlder.date = some 100 ∧
      parseDateModel tieNewer.date = some 200 := by
  refine ⟨by decide, by decide, by decide⟩

/-- Claim C8 (amended): the relevance step drops every item whose final
score is below the 0.4 threshold, sorts the survivors in descending score
order — ties left in input (stable) order, with no recency tie-break — and
truncates to at most 10 items. -/
theorem C8_amended_threshold_sorted_top10 (oracle : NewsItem → Except String (Option Rat))
    (items : List NewsItem) :
    (∀ it ∈ filter_relevance_generic oracle items, Rat.divInt 2 5 ≤ it.relevance_score) ∧
      List.Sorted scoreDesc (filter_relevance_generic oracle items) ∧
      (filter_relevance_generic oracle items).length ≤ 10 := by
  refine ⟨fun it h => (score_loop_mem_bounds oracle (items.take 20) it
    (filter_relevance_mem_score_loop oracle items it h)).1, ?_, ?_⟩
  · unfold filter_relevance_generic
    split
    · rename_i hnil
      rw [hnil]
      exact List.sorted_nil
    · exact List.Pairwise.sublist (List.take_sublist 10 _)
        (List.sorted_insertionSort scoreDesc _)
  · unfold filter_relevance_generic
    split
    · rename_i hnil
      rw [hnil]
      exact by norm_num
    · exact List.length_take_le 10 _

/-- Witness for C8 (amended) at a concrete input. -/
theorem C8_witness :
    ({ tieOlder with relevance_score := Rat.divInt 1 2 } ∈
        filter_relevance_generic unparsableOracle [tieOlder, tieNewer]) ∧
      Rat.divInt 2 5 ≤ ({ tieOlder with relevance_score := Rat.divInt 1 2 } : NewsItem).relevance_score ∧
      List.Sorted scoreDesc (filter_relevance_generic unparsableOracle [tieOlder, tieNewer]) ∧
      (filter_relevance_generic unparsableOracle [tieOlder, tieNewer]).length ≤ 10 :=
  ⟨by decide,
   (C8_amended_threshold_sorted_top10 unparsableOracle [tieOlder, tieNewer]).1 _ (by decide),
   (C8_amended_threshold_sorted_top10 unparsableOracle [tieOlder, tieNewer]).2.1,
   (C8_amended_threshold_sorted_top10 unparsableOracle [tieOlder, tieNewer]).2.2⟩

/-! ## Claim C2: query generation -/

theorem append_mid_ne_empty (a mid b : String) (hm : mid.length ≠ 0) :
    a ++ mid ++ b ≠ "" := by
  intro hcontra
  have hd := congrArg String.length hcontra
  simp only [String.length_append, String.length_empty] at hd
  omega

theorem fallback_queries_all_ne_empty (domain user_expertise : String) :
    ∀ q ∈ fallback_queries domain user_expertise, q ≠ "" := by
  intro q hq
  simp only [fallback_queries, List.mem_cons, List.not_mem_nil, or_false] at hq
  rcases hq with h | h | h | h <;> subst h <;>
    exact append_mid_ne_empty _ _ _ (by decide)

/-- Claim C2 counterexample: when the oracle reply is the valid JSON text
`"[]"`, `json.loads` yields the empty Python list, which passes the
`isinstance(queries, list)` test and is stored as-is, so query generation
returns an empty query list — no fallback fires, contradicting the claim
that the result is always a non-empty list of non-empty strings. -/
theorem C2_counterexample_empty_array_passes_through :
    generate_queries "regulatory" samplePrefs
      (Except.ok ("[]", JsonOutcome.jsonArray [])) = Except.ok [] := rfl

/-- Claim C2 (amended): only a `json.loads` parse failure triggers the
deterministic fallback, which does produce a fixed list of 4 non-empty
template queries; a reply parsing to a JSON array is used as-is (so zero
usable strings yield an empty list), and an oracle-call exception
propagates out of the query generator instead of falling back (it is
caught later at the per-agent boundary). -/
theorem C2_amended_fallback_only_on_parse_failure (domain : String)
    (prefs : UserPreferences) (content : String) :
    generate_queries domain prefs (Except.ok (content, JsonOutcome.jsonFail))
        = Except.ok (fallback_queries domain (prefs.expertise_areas.headD "healthcare")) ∧
      (fallback_queries domain (prefs.expertise_areas.headD "healthcare")).length = 4 ∧
      (∀ q ∈ fallback_queries domain (prefs.expertise_areas.headD "healthcare"), q ≠ "") ∧
      (∀ e : String, generate_queries domain prefs (Except.error e) = Except.error e) :=
  ⟨rfl, rfl, fallback_queries_all_ne_empty _ _, fun _ => rfl⟩

/-- Witness for C2 (amended) at a concrete input: a garbled oracle reply
falls back to the four template queries, one of which is the concrete
non-empty string shown. -/
theorem C2_witness :
    generate_queries "regulatory" samplePrefs (Except.ok ("not json", JsonOutcome.jsonFail))
        = Except.ok (fallback_queries "regulatory" "pediatric oncology") ∧
      "regulatory pediatric oncology" ∈ fallback_queries "regulatory" "pediatric oncology" ∧
      "regulatory pediatric oncology" ≠ "" :=
  ⟨(C2_amended_fallback_only_on_parse_failure "regulatory" samplePrefs "not json").1,
   by decide,
   (C2_amended_fallback_only_on_parse_failure "regulatory" samplePrefs "not json").2.2.1 _
     (by decide)⟩

/-! ## Claim C9: snippet truncation -/

theorem pySlice_length_le (s : String) (n : Nat) : (pySlice s n).length ≤ n :=
  List.length_take_le n s.data

set_option maxRecDepth 4000 in
/-- Claim C9 counterexample: the general web-search adapter copies the raw
snippet into the news item without truncation, so a raw hit whose snippet
has 301 characters yields a `NewsItem` whose snippet exceeds the claimed
300-character bound. -/
theorem C9_counterexample_serp_snippet_unbounded :
    (serp_news_item (fun _ => 0) "regulatory" AgentCategory.REGULATORY "2025-01-01"
        { title := some "FDA approves new therapy",
          snippet := some (String.mk (List.replicate 301 'x')),
          source := some "unknown-blog",
          date := some "2025-01-01",
          link := "https://news.example/long" }).snippet.length = 301 := by decide

/-- Claim C9 (amended): the two registry adapters do truncate — every item
built by `_search_with_nih_api` or `_search_with_clinical_data_api` has a
snippet of at most 300 characters — but the general web-search adapter
(`_search_with_serp_api`) copies the raw snippet unmodified, so its
snippet length is bounded only by the source. -/
theorem C9_amended_registry_snippets_bounded :
    (∀ (domain : String) (cat : AgentCategory) (study : NihStudy),
        (nih_news_item domain cat study).snippet.length ≤ 300) ∧
      (∀ (domain : String) (cat : AgentCategory) (now_iso : String)
          (study : ClinicalDataStudy) (item : NewsItem),
        ctdata_news_item domain cat now_iso study = some item →
          item.snippet.length ≤ 300) := by
  constructor
  · intro domain cat study
    unfold nih_news_item
    dsimp only
    split
    · simp
    · exact le_trans (pySlice_length_le _ 300) (by norm_num)
  · intro domain cat now_iso study item h
    unfold ctdata_news_item at h
    dsimp only at h
    split at h
    · rename_i hstatus
      injection h with h
      subst h
      dsimp only
      split
      · rename_i hsum
        rw [String.length_append]
        have hlit : ("Clinical trial status: ").length = 23 := rfl
        have hbound : (study.overallStatus.getD "").length ≤ 23 := by
          simp only [allowed_statuses, List.mem_cons, List.not_mem_nil, or_false] at hstatus
          rcases hstatus with h | h | h | h <;> rw [h] <;> decide
        omega
      · exact le_trans (pySlice_length_le _ 300) (by norm_num)
    · exact absurd h (by simp)

/-- Sample registry variant-B study used by witnesses: status on the
allow-list, no summary. -/
def ctdataSampleStudy : ClinicalDataStudy :=
  { nctId := some "NCT778",
    briefTitle := some "Another trial",
    briefSummary := none,
    overallStatus := some "Recruiting",
    startDate := none }

/-- The news item that `ctdataSampleStudy` normalizes to. -/
def ctdataSampleItem : NewsItem :=
  { id := "ctdata_NCT778",
    title := "Another trial (Recruiting) - Clinical",
    snippet := "Clinical trial status: Recruiting",
    source := "ClinicalTrials.gov Data API",
    date := "2025-01-01",
    category := "clinical",
    url := "https://clinicaltrials.gov/study/NCT778",
    relevance_score := Rat.divInt 17 20 }

set_option maxRecDepth 4000 in
/-- Witness for C9 (amended) at concrete inputs: a registry study with a
400-character summary is truncated to a 300-character snippet, and a
status-filtered variant-B study likewise stays within the bound. -/
theorem C9_witness :
    (nih_news_item "clinical" AgentCategory.CLINICAL
        { nctId := some "NCT777",
          briefTitle := some "A long trial",
          briefSummary := some (String.mk (List.replicate 400 's')),
          startDate := some "2024-03-01" }).snippet.length ≤ 300 ∧
      ctdata_news_item "clinical" AgentCategory.CLINICAL "2025-01-01" ctdataSampleStudy
        = some ctdataSampleItem ∧
      ctdataSampleItem.snippet.length ≤ 300 :=
  ⟨C9_amended_registry_snippets_bounded.1 "clinical" AgentCategory.CLINICAL _,
   by decide,
   C9_amended_registry_snippets_bounded.2 "clinical" AgentCategory.CLINICAL "2025-01-01"
     ctdataSampleStudy ctdataSampleItem (by decide)⟩

/-! ## Claim C6: date sanitation -/

/-- Regulatory item whose date parses to 400 days before `now = 1000`. -/
def staleItem : NewsItem :=
  { id := "regulatory_serp_7",
    title := "Old policy change",
    snippet := "stale news",
    source := "Outlet C",
    date := "600",
    category := "regulatory",
    url := "https://c.example/old",
    relevance_score := Rat.divInt 7 10 }

/-- Regulatory item whose date parses to 30 days before `now = 1000`. -/
def recentItem : NewsItem :=
  { id := "regulatory_serp_8",
    title := "Fresh policy change",
    snippet := "recent news",
    source := "Outlet C",
    date := "970",
    category := "regulatory",
    url := "https://c.example/fresh",
    relevance_score := Rat.divInt 7 10 }

/-- Regulatory item whose date string does not parse. -/
def unDatedItem : NewsItem :=
  { id := "regulatory_serp_9",
    title := "Undated policy change",
    snippet := "no date given",
    source := "Outlet C",
    date := "sometime last spring",
    category := "regulatory",
    url := "https://c.example/undated",
    relevance_score := Rat.divInt 7 10 }

/-- Claim C6 counterexample: the sanitation sentinel written by the code is
`"Date not found"` (capital D), not the `"date not found"` quoted by the
claim; the unparsable-dated item is kept, but with a date different from
the claimed sentinel string. -/
theorem C6_counterexample_sentinel_capitalization :
    validate_and_filter_dates parseDateModel 1000 [unDatedItem]
        = [{ unDatedItem with date := "Date not found" }] ∧
      ({ unDatedItem with date := "Date not found" } : NewsItem).date ≠ "date not found" :=
  ⟨by decide, by decide⟩

/-- Claim C6 (amended): an item whose date parses to 400 days before now is
dropped; an item whose date parses to 30 days before now is kept with its
original date string; an item whose non-empty date string fails to parse
is kept with its date set to the sentinel `"Date not found"` (capital D,
not the claimed `"date not found"`). -/
theorem C6_amended_date_sanitation (parseDate : String → Option Int) (now : Int)
    (item : NewsItem) :
    ((item.date ≠ "" ∧ parseDate item.date = some (now - 400)) →
        validate_and_filter_dates parseDate now [item] = []) ∧
      ((item.date ≠ "" ∧ parseDate item.date = some (now - 30)) →
        validate_and_filter_dates parseDate now [item] = [item]) ∧
      ((item.date ≠ "" ∧ parseDate item.date = none) →
        validate_and_filter_dates parseDate now [item]
          = [{ item with date := "Date not found" }]) := by
  refine ⟨?_, ?_, ?_⟩
  · rintro ⟨hne, hp⟩
    simp only [validate_and_filter_dates, if_neg hne, hp]
    rw [if_neg (by omega)]
  · rintro ⟨hne, hp⟩
    simp only [validate_and_filter_dates, if_neg hne, hp]
    rw [if_pos (by omega)]
  · rintro ⟨hne, hp⟩
    simp only [validate_and_filter_dates, if_neg hne, hp]

/-- Witness for C6 (amended) at concrete inputs with `now = 1000` and the
digit-string date parser. -/
theorem C6_witness :
    validate_and_filter_dates parseDateModel 1000 [staleItem] = [] ∧
      validate_and_filter_dates parseDateModel 1000 [recentItem] = [recentItem] ∧
      validate_and_filter_dates parseDateModel 1000 [unDatedItem]
        = [{ unDatedItem with date := "Date not found" }] :=
  ⟨(C6_amended_date_sanitation parseDateModel 1000 staleItem).1 ⟨by decide, by decide⟩,
   (C6_amended_date_sanitation parseDateModel 1000 recentItem).2.1 ⟨by decide, by decide⟩,
   (C6_amended_date_sanitation parseDateModel 1000 unDatedItem).2.2 ⟨by decide, by decide⟩⟩

/-! ## Deduplication machinery -/

/-- Items surviving date sanitation: the date is the sentinel, or it is a
non-empty string parsing into the trailing 365-day window. -/
def DateSane (parseDate : String → Option Int) (now : Int) (item : NewsItem) : Prop :=
  item.date = "Date not found" ∨
    (item.date ≠ "" ∧ ∃ d, parseDate item.date = some d ∧ now - 365 ≤ d ∧ d ≤ now)

theorem with_date_self {it : NewsItem} (h : it.date = "Date not found") :
    ({ it with date := "Date not found" } : NewsItem) = it := by
  cases it
  simp_all

theorem validate_mem_dateSane (parseDate : String → Option Int) (now : Int) :
    ∀ (l : List NewsItem) (it : NewsItem),
      it ∈ validate_and_filter_dates parseDate now l → DateSane parseDate now it := by
  intro l
  induction l with
  | nil => intro it h; simp [validate_and_filter_dates] at h
  | cons item rest ih =>
    intro it h
    simp only [validate_and_filter_dates] at h
    by_cases hempty : item.date = ""
    · rw [if_pos hempty] at h
      rcases List.mem_cons.mp h with hq | hq
      · subst hq; exact Or.inl rfl
      · exact ih it hq
    · rw [if_neg hempty] at h
      cases hp : parseDate item.date with
      | none =>
        simp only [hp] at h
        rcases List.mem_cons.mp h with hq | hq
        · subst hq; exact Or.inl rfl
        · exact ih it hq
      | some d =>
        simp only [hp] at h
        by_cases hwin : now - 365 ≤ d ∧ d ≤ now
        · rw [if_pos hwin] at h
          rcases List.mem_cons.mp h with hq | hq
          · subst hq; exact Or.inr ⟨hempty, d, hp, hwin.1, hwin.2⟩
          · exact ih it hq
        · rw [if_neg hwin] at h
          exact ih it h

theorem validate_fixpoint (parseDate : String → Option Int) (now : Int)
    (hsent : parseDate "Date not found" = none) :
    ∀ l : List NewsItem, (∀ it ∈ l, DateSane parseDate now it) →
      validate_and_filter_dates parseDate now l = l := by
  intro l
  induction l with
  | nil => intro _; rfl
  | cons item rest ih =>
    intro hall
    have hrest := ih fun it h => hall it (List.mem_cons_of_mem item h)
    rcases hall item (List.mem_cons_self item rest) with hsentinel | ⟨hne, d, hp, h1, h2⟩
    · have hne : item.date ≠ "" := by rw [hsentinel]; decide
      simp only [validate_and_filter_dates, if_neg hne]
      rw [hsentinel, hsent]
      simp only [hrest, with_date_self hsentinel]
    · simp only [validate_and_filter_dates, if_neg hne, hp]
      rw [if_pos ⟨h1, h2⟩, hrest]

theorem dedup_loop_subset :
    ∀ (l : List NewsItem) (sN : List String) (sT : List (List Char)) (it : NewsItem),
      it ∈ dedup_loop l sN sT → it ∈ l := by
  intro l
  induction l with
  | nil => intro sN sT it h; simp [dedup_loop] at h
  | cons item rest ih =>
    intro sN sT it h
    simp only [dedup_loop] at h
    by_cases hreg : isRegistryId item.id = true
    · rw [if_pos hreg] at h
      by_cases hn : stripSourceKind item.id ∈ sN
      · rw [if_pos hn] at h
        exact List.mem_cons_of_mem item (ih _ _ it h)
      · rw [if_neg hn] at h
        by_cases ht : titleKey item ∈ sT
        · rw [if_pos ht] at h
          exact List.mem_cons_of_mem item (ih _ _ it h)
        · rw [if_neg ht] at h
          rcases List.mem_cons.mp h with hq | hq
          · subst hq; exact List.mem_cons_self it rest
          · exact List.mem_cons_of_mem item (ih _ _ it hq)
    · rw [if_neg hreg] at h
      by_cases ht : titleKey item ∈ sT
      · rw [if_pos ht] at h
        exact List.mem_cons_of_mem item (ih _ _ it h)
      · rw [if_neg ht] at h
        rcases List.mem_cons.mp h with hq | hq
        · subst hq; exact List.mem_cons_self it rest
        · exact List.mem_cons_of_mem item (ih _ _ it hq)

theorem dedup_loop_mem_unseen :
    ∀ (l : List NewsItem) (sN : List String) (sT : List (List Char)) (it : NewsItem),
      it ∈ dedup_loop l sN sT →
        titleKey it ∉ sT ∧ (isRegistryId it.id = true → stripSourceKind it.id ∉ sN) := by
  intro l
  induction l with
  | nil => intro sN sT it h; simp [dedup_loop] at h
  | cons item rest ih =>
    intro sN sT it h
    simp only [dedup_loop] at h
    by_cases hreg : isRegistryId item.id = true
    · rw [if_pos hreg] at h
      by_cases hn : stripSourceKind item.id ∈ sN
      · rw [if_pos hn] at h
        exact ih _ _ it h
      · rw [if_neg hn] at h
        by_cases ht : titleKey item ∈ sT
        · rw [if_pos ht] at h
          have := ih _ _ it h
          exact ⟨this.1, fun hr => fun hmem =>
            this.2 hr (List.mem_cons_of_mem _ hmem)⟩
        · rw [if_neg ht] at h
          rcases List.mem_cons.mp h with hq | hq
          · subst hq; exact ⟨ht, fun _ => hn⟩
          · have := ih _ _ it hq
            exact ⟨fun hmem => this.1 (List.mem_cons_of_mem _ hmem),
              fun hr hmem => this.2 hr (List.mem_cons_of_mem _ hmem)⟩
    · rw [if_neg hreg] at h
      by_cases ht : titleKey item ∈ sT
      · rw [if_pos ht] at h
        exact ih _ _ it h
      · rw [if_neg ht] at h
        rcases List.mem_cons.mp h with hq | hq
        · subst hq; exact ⟨ht, fun hr => absurd hr hreg⟩
        · have := ih _ _ it hq
          exact ⟨fun hmem => this.1 (List.mem_cons_of_mem _ hmem), this.2⟩

/-- Two items with different 50-character lowercased title keys. -/
def titleDistinct (a b : NewsItem) : Prop :=
  titleKey a ≠ titleKey b

/-- Two items that, when both registry-sourced, carry different registry
identifiers after the source-kind marker is stripped. -/
def registryDistinct (a b : NewsItem) : Prop :=
  isRegistryId a.id = true → isRegistryId b.id = true →
    stripSourceKind a.id ≠ stripSourceKind b.id

theorem titleDistinct_symm : ∀ {a b : NewsItem}, titleDistinct a b → titleDistinct b a :=
  fun h => Ne.symm h

theorem registryDistinct_symm : ∀ {a b : NewsItem}, registryDistinct a b → registryDistinct b a :=
  fun h hb ha => (h ha hb).symm

theorem dedup_loop_pairwise :
    ∀ (l : List NewsItem) (sN : List String) (sT : List (List Char)),
      List.Pairwise titleDistinct (dedup_loop l sN sT) ∧
        List.Pairwise registryDistinct (dedup_loop l sN sT) := by
  intro l
  induction l with
  | nil => intro sN sT; simp [dedup_loop]
  | cons item rest ih =>
    intro sN sT
    simp only [dedup_loop]
    by_cases hreg : isRegistryId item.id = true
    · rw [if_pos hreg]
      by_cases hn : stripSourceKind item.id ∈ sN
      · rw [if_pos hn]; exact ih _ _
      · rw [if_neg hn]
        by_cases ht : titleKey item ∈ sT
        · rw [if_pos ht]; exact ih _ _
        · rw [if_neg ht]
          constructor
          · exact List.pairwise_cons.mpr
              ⟨fun b hb => fun heq =>
                 (dedup_loop_mem_unseen _ _ _ b hb).1 (heq ▸ List.mem_cons_self _ _),
               (ih _ _).1⟩
          · refine List.pairwise_cons.mpr ⟨fun b hb => ?_, (ih _ _).2⟩
            intro _ hbreg heq
            exact (dedup_loop_mem_unseen _ _ _ b hb).2 hbreg
              (heq ▸ List.mem_cons_self _ _)
    · rw [if_neg hreg]
      by_cases ht : titleKey item ∈ sT
      · rw [if_pos ht]; exact ih _ _
      · rw [if_neg ht]
        constructor
        · exact List.pairwise_cons.mpr
            ⟨fun b hb => fun heq =>
               (dedup_loop_mem_unseen _ _ _ b hb).1 (heq ▸ List.mem_cons_self _ _),
             (ih _ _).1⟩
        · exact List.pairwise_cons.mpr
            ⟨fun b _ => fun hr => absurd hr hreg, (ih _ _).2⟩

theorem dedup_loop_fixpoint :
    ∀ (l : List NewsItem) (sN : List String) (sT : List (List Char)),
      List.Pairwise titleDistinct l → List.Pairwise registryDistinct l →
      (∀ it ∈ l, titleKey it ∉ sT ∧ (isRegistryId it.id = true → stripSourceKind it.id ∉ sN)) →
      dedup_loop l sN sT = l := by
  intro l
  induction l with
  | nil => intro sN sT _ _ _; rfl
  | cons item rest ih =>
    intro sN sT hpt hpr hun
    have hhead := hun item (List.mem_cons_self item rest)
    have hht : titleKey item ∉ sT := hhead.1
    simp only [dedup_loop]
    by_cases hreg : isRegistryId item.id = true
    · rw [if_pos hreg, if_neg (hhead.2 hreg), if_neg hht]
      congr 1
      refine ih _ _ (List.Pairwise.of_cons hpt) (List.Pairwise.of_cons hpr) ?_
      intro it hit
      have hu := hun it (List.mem_cons_of_mem item hit)
      refine ⟨?_, ?_⟩
      · intro hmem
        rcases List.mem_cons.mp hmem with heq | hmem2
        · exact (List.rel_of_pairwise_cons hpt hit) heq.symm
        · exact hu.1 hmem2
      · intro hr hmem
        rcases List.mem_cons.mp hmem with heq | hmem2
        · exact (List.rel_of_pairwise_cons hpr hit) hreg hr heq.symm
        · exact hu.2 hr hmem2
    · rw [if_neg hreg, if_neg hht]
      congr 1
      refine ih _ _ (List.Pairwise.of_cons hpt) (List.Pairwise.of_cons hpr) ?_
      intro it hit
      have hu := hun it (List.mem_cons_of_mem item hit)
      refine ⟨?_, hu.2⟩
      intro hmem
      rcases List.mem_cons.mp hmem with heq | hmem2
      · exact (List.rel_of_pairwise_cons hpt hit) heq.symm
      · exact hu.1 hmem2

theorem deduplicate_mem_unique_items (parseDate : String → Option Int) (now : Int)
    (items : List NewsItem) (it : NewsItem)
    (h : it ∈ deduplicate_news_items parseDate now items) :
    it ∈ dedup_loop (validate_and_filter_dates parseDate now items) [] [] :=
  (List.perm_insertionSort scoreDesc _).subset (List.take_subset 10 _ h)

theorem deduplicate_pairwise (parseDate : String → Option Int) (now : Int)
    (items : List NewsItem) :
    List.Pairwise titleDistinct (deduplicate_news_items parseDate now items) ∧
      List.Pairwise registryDistinct (deduplicate_news_items parseDate now items) := by
  have h := dedup_loop_pairwise (validate_and_filter_dates parseDate now items) [] []
  constructor
  · exact List.Pairwise.sublist (List.take_sublist 10 _)
      (((List.perm_insertionSort scoreDesc _).pairwise_iff
        (fun {x y} => titleDistinct_symm)).mpr h.1)
  · exact List.Pairwise.sublist (List.take_sublist 10 _)
      (((List.perm_insertionSort scoreDesc _).pairwise_iff
        (fun {x y} => registryDistinct_symm)).mpr h.2)

theorem deduplicate_sorted (parseDate : String → Option Int) (now : Int)
    (items : List NewsItem) :
    List.Sorted scoreDesc (deduplicate_news_items parseDate now items) :=
  List.Pairwise.sublist (List.take_sublist 10 _) (List.sorted_insertionSort scoreDesc _)

theorem deduplicate_length_le (parseDate : String → Option Int) (now : Int)
    (items : List NewsItem) :
    (deduplicate_news_items parseDate now items).length ≤ 10 :=
  List.length_take_le 10 _

theorem deduplicate_mem_dateSane (parseDate : String → Option Int) (now : Int)
    (items : List NewsItem) (it : NewsItem)
    (h : it ∈ deduplicate_news_items parseDate now items) :
    DateSane parseDate now it :=
  validate_mem_dateSane parseDate now items it
    (dedup_loop_subset _ [] [] it (deduplicate_mem_unique_items parseDate now items it h))

/-! ## Claim C4: deduplication is idempotent -/

/-- Claim C4: deduplication (date sanitation, duplicate-key removal, stable
score sort, top-10 truncation) is idempotent: applying it to its own output
returns that output unchanged.  The only assumption on the external date
parser is the one `dateutil` satisfies: the sentinel string
`"Date not found"` does not parse as a date. -/
theorem C4_deduplicate_idempotent (parseDate : String → Option Int) (now : Int)
    (items : List NewsItem) (hsent : parseDate "Date not found" = none) :
    deduplicate_news_items parseDate now (deduplicate_news_items parseDate now items)
      = deduplicate_news_items parseDate now items := by
  have hsane : ∀ it ∈ deduplicate_news_items parseDate now items, DateSane parseDate now it :=
    fun it h => deduplicate_mem_dateSane parseDate now items it h
  have hpair := deduplicate_pairwise parseDate now items
  have hsorted := deduplicate_sorted parseDate now items
  have hlen := deduplicate_length_le parseDate now items
  show (List.insertionSort scoreDesc
      (dedup_loop (validate_and_filter_dates parseDate now
        (deduplicate_news_items parseDate now items)) [] [])).take 10
    = deduplicate_news_items parseDate now items
  rw [validate_fixpoint parseDate now hsent _ hsane,
    dedup_loop_fixpoint _ [] [] hpair.1 hpair.2
      (fun it _ => ⟨List.not_mem_nil _, fun _ => List.not_mem_nil _⟩),
    List.Sorted.insertionSort_eq hsorted,
    List.take_of_length_le hlen]

/-- Witness for C4 at a concrete input: the digit-string date parser sends
the sentinel to `none`, and deduplicating the three concrete items twice
equals deduplicating them once. -/
theorem C4_witness :
    parseDateModel "Date not found" = none ∧
      deduplicate_news_items parseDateModel 1000
          (deduplicate_news_items parseDateModel 1000 [staleItem, recentItem, unDatedItem])
        = deduplicate_news_items parseDateModel 1000 [staleItem, recentItem, unDatedItem] :=
  ⟨by decide,
   C4_deduplicate_idempotent parseDateModel 1000 [staleItem, recentItem, unDatedItem]
     (by decide)⟩

/-! ## Claim C5: duplicate keys in the output -/

/-- Registry item for trial NCT1 seen through API variant A. -/
def nihAlphaItem : NewsItem :=
  { id := "nih_NCT1",
    title := "Alpha trial readout",
    snippet := "variant A record",
    source := "ClinicalTrials.gov NIH API",
    date := "900",
    category := "clinical",
    url := "https://clinicaltrials.gov/study/NCT1",
    relevance_score := Rat.divInt 9 10 }

/-- The same trial NCT1 seen through API variant B, under a different
headline shared with `plainBetaItem`. -/
def ctdataBetaItem : NewsItem :=
  { id := "ctdata_NCT1",
    title := "Beta coverage of the trial",
    snippet := "variant B record",
    source := "ClinicalTrials.gov Data API",
    date := "900",
    category := "clinical",
    url := "https://clinicaltrials.gov/study/NCT1",
    relevance_score := Rat.divInt 4 5 }

/-- A non-registry item with the same headline as `ctdataBetaItem`. -/
def plainBetaItem : NewsItem :=
  { id := "clinical_serp_5",
    title := "Beta coverage of the trial",
    snippet := "general web record",
    source := "Outlet D",
    date := "900",
    category := "clinical",
    url := "https://d.example/beta",
    relevance_score := Rat.divInt 7 10 }

/-- Claim C5 counterexample: the first-seen rule fails across the two
duplicate checks.  `ctdataBetaItem` is the first-seen item with the title
key of `"Beta coverage of the trial"`, but it is skipped by the
registry-identifier check (NCT1 was already reserved by `nihAlphaItem`)
before its title key is recorded, so the later `plainBetaItem` is the item
kept for that title key. -/
theorem C5_counterexample_first_seen_not_kept :
    deduplicate_news_items parseDateModel 1000 [nihAlphaItem, ctdataBetaItem, plainBetaItem]
        = [nihAlphaItem, plainBetaItem] ∧
      titleKey ctdataBetaItem = titleKey plainBetaItem ∧
      ctdataBetaItem ≠ plainBetaItem :=
  ⟨by decide, by decide, by decide⟩

/-- Claim C5 (amended): in the deduplication output no two items share the
same lowercased 50-character title prefix, and no two registry-sourced
items share the same registry identifier after the source-kind marker is
stripped (so `nih_NCT123` and `ctdata_NCT123` collapse to one); however,
the item kept for a duplicate key is the first-seen item only among those
not already excluded by the other duplicate check or by date sanitation,
not the first-seen item of the raw input. -/
theorem C5_amended_duplicate_keys_unique (parseDate : String → Option Int) (now : Int)
    (items : List NewsItem) :
    List.Pairwise titleDistinct (deduplicate_news_items parseDate now items) ∧
      List.Pairwise registryDistinct (deduplicate_news_items parseDate now items) :=
  deduplicate_pairwise parseDate now items

/-! ## Claim C10: deduplication creates no items -/

theorem validate_mem_source (parseDate : String → Option Int) (now : Int) :
    ∀ (l : List NewsItem) (it : NewsItem), it ∈ validate_and_filter_dates parseDate now l →
      ∃ orig ∈ l, it = orig ∨
        (it = { orig with date := "Date not found" } ∧
          (orig.date = "" ∨ parseDate orig.date = none)) := by
  intro l
  induction l with
  | nil => intro it h; simp [validate_and_filter_dates] at h
  | cons item rest ih =>
    intro it h
    simp only [validate_and_filter_dates] at h
    by_cases hempty : item.date = ""
    · rw [if_pos hempty] at h
      rcases List.mem_cons.mp h with hq | hq
      · exact ⟨item, List.mem_cons_self item rest, Or.inr ⟨hq, Or.inl hempty⟩⟩
      · obtain ⟨orig, hmem, hcase⟩ := ih it hq
        exact ⟨orig, List.mem_cons_of_mem item hmem, hcase⟩
    · rw [if_neg hempty] at h
      cases hp : parseDate item.date with
      | none =>
        simp only [hp] at h
        rcases List.mem_cons.mp h with hq | hq
        · exact ⟨item, List.mem_cons_self item rest, Or.inr ⟨hq, Or.inr hp⟩⟩
        · obtain ⟨orig, hmem, hcase⟩ := ih it hq
          exact ⟨orig, List.mem_cons_of_mem item hmem, hcase⟩
      | some d =>
        simp only [hp] at h
        by_cases hwin : now - 365 ≤ d ∧ d ≤ now
        · rw [if_pos hwin] at h
          rcases List.mem_cons.mp h with hq | hq
          · exact ⟨item, List.mem_cons_self item rest, Or.inl hq⟩
          · obtain ⟨orig, hmem, hcase⟩ := ih it hq
            exact ⟨orig, List.mem_cons_of_mem item hmem, hcase⟩
        · rw [if_neg hwin] at h
          obtain ⟨orig, hmem, hcase⟩ := ih it h
          exact ⟨orig, List.mem_cons_of_mem item hmem, hcase⟩

/-- Claim C10: deduplication never creates items.  Every item of the output
is one of the input items, all fields unchanged except possibly the date,
and the date differs only by being replaced with the sentinel
`"Date not found"` — which happens exactly when the original date string
is empty or fails to parse. -/
theorem C10_deduplicate_creates_nothing (parseDate : String → Option Int) (now : Int)
    (items : List NewsItem) (it : NewsItem)
    (h : it ∈ deduplicate_news_items parseDate now items) :
    ∃ orig ∈ items, it = orig ∨
      (it = { orig with date := "Date not found" } ∧
        (orig.date = "" ∨ parseDate orig.date = none)) :=
  validate_mem_source parseDate now items it
    (dedup_loop_subset _ [] [] it (deduplicate_mem_unique_items parseDate now items it h))

/-- Witness for C10 at a concrete input: the sentinel-dated output item
traces back to the unparsable-dated input item. -/
theorem C10_witness :
    ({ unDatedItem with date := "Date not found" }
        ∈ deduplicate_news_items parseDateModel 1000 [unDatedItem]) ∧
      ∃ orig ∈ [unDatedItem],
        ({ unDatedItem with date := "Date not found" } : NewsItem) = orig ∨
          (({ unDatedItem with date := "Date not found" } : NewsItem)
              = { orig with date := "Date not found" } ∧
            (orig.date = "" ∨ parseDateModel orig.date = none)) :=
  ⟨by decide,
   C10_deduplicate_creates_nothing parseDateModel 1000 [unDatedItem] _ (by decide)⟩

/-! ## Claim C1: parallel aggregation isolates failures -/

theorem grouped_flatMap_congr (d : String) (F G : String → List NewsItem)
    (h : ∀ j, domainOfKey j = d → F j = G j) :
    ∀ keys : List String,
      (((keys.map fun j => (j, F j)).filter fun p => domainOfKey p.1 == d).flatMap Prod.snd)
        = (((keys.map fun j => (j, G j)).filter fun p => domainOfKey p.1 == d).flatMap
            Prod.snd) := by
  intro keys
  induction keys with
  | nil => rfl
  | cons j rest ih =>
    simp only [List.map_cons, List.filter_cons]
    by_cases hd : domainOfKey j = d
    · have hbeq : (domainOfKey (j, F j).1 == d) = true := beq_iff_eq.mpr hd
      have hbeq2 : (domainOfKey (j, G j).1 == d) = true := beq_iff_eq.mpr hd
      rw [if_pos hbeq, if_pos hbeq2]
      simp only [List.flatMap_cons]
      rw [h j hd, ih]
    · have hbeq : (domainOfKey (j, F j).1 == d) = false := beq_eq_false_iff_ne.mpr hd
      have hbeq2 : (domainOfKey (j, G j).1 == d) = false := beq_eq_false_iff_ne.mpr hd
      rw [if_neg (by simp [hbeq]), if_neg (by simp [hbeq2])]
      exact ih

theorem agent_results_override_error (ainvoke : String → Except String AgentState)
    (prefs : UserPreferences) (e : String) (k : String) :
    agent_results (override ainvoke k (Except.error e)) prefs
      = agent_results (override ainvoke k (Except.ok (initial_agent_state prefs k))) prefs := by
  unfold agent_results
  refine List.map_congr_left ?_
  intro j _
  by_cases hj : j = k
  · subst hj
    simp [override, run_single_agent, initial_agent_state]
  · simp [override, hj]

/-- Claim C1: the parallel aggregator is total (embedded as a Lean
function), its result map carries exactly the four domain keys in order,
a sub-agent whose execution raises contributes exactly what an agent with
an empty item list contributes (its error is absorbed by
`_run_single_agent`, whose fallback state has no news items), and every
domain other than that of the failing sub-agent is completely unaffected. -/
theorem C1_parallel_aggregation_isolates_failures
    (ainvoke : String → Except String AgentState) (prefs : UserPreferences)
    (parseDate : String → Option Int) (now : Int) (e : String) (k : String) :
    (run_parallel_agents ainvoke prefs parseDate now).map Prod.fst
        = ["regulatory", "clinical", "market", "rwe"] ∧
      run_parallel_agents (override ainvoke k (Except.error e)) prefs parseDate now
        = run_parallel_agents (override ainvoke k (Except.ok (initial_agent_state prefs k)))
            prefs parseDate now ∧
      ∀ d : String, d ≠ domainOfKey k →
        domain_result (override ainvoke k (Except.error e)) prefs parseDate now d
          = domain_result ainvoke prefs parseDate now d := by
  refine ⟨rfl, ?_, ?_⟩
  · unfold run_parallel_agents domain_result
    rw [agent_results_override_error ainvoke prefs e k]
  · intro d hd
    have h : ∀ j, domainOfKey j = d →
        (run_single_agent (override ainvoke k (Except.error e) j)
            (initial_agent_state prefs j)).news_items
          = (run_single_agent (ainvoke j) (initial_agent_state prefs j)).news_items := by
      intro j hj
      have hjk : j ≠ k := by
        intro hjk
        apply hd
        rw [← hj, hjk]
      unfold override
      rw [if_neg hjk]
    unfold domain_result agent_results
    exact congrArg (deduplicate_news_items parseDate now)
      (grouped_flatMap_congr d _ _ h sub_agent_keys)

/-- Concrete sub-agent outcomes: every sub-agent settles with one news
item. -/
def okInvoke : String → Except String AgentState :=
  fun agent_key =>
    Except.ok
      { user_preferences := samplePrefs,
        category := get_category_enum (domainOfKey agent_key),
        news_items := [recentItem],
        processing_status := "completed" }

/-- Witness for C1 at a concrete input: with every sub-agent succeeding and
the `clinical_nih` sub-agent then overridden to raise, the key set is the
four domains, the failure is equivalent to an empty contribution, and the
regulatory domain is unaffected. -/
theorem C1_witness :
    (run_parallel_agents okInvoke samplePrefs parseDateModel 1000).map Prod.fst
        = ["regulatory", "clinical", "market", "rwe"] ∧
      run_parallel_agents (override okInvoke "clinical_nih" (Except.error "boom"))
          samplePrefs parseDateModel 1000
        = run_parallel_agents (override okInvoke "clinical_nih"
            (Except.ok (initial_agent_state samplePrefs "clinical_nih")))
            samplePrefs parseDateModel 1000 ∧
      domain_result (override okInvoke "clinical_nih" (Except.error "boom"))
          samplePrefs parseDateModel 1000 "regulatory"
        = domain_result okInvoke samplePrefs parseDateModel 1000 "regulatory" :=
  ⟨(C1_parallel_aggregation_isolates_failures okInvoke samplePrefs parseDateModel 1000
      "boom" "clinical_nih").1,
   (C1_parallel_aggregation_isolates_failures okInvoke samplePrefs parseDateModel 1000
      "boom" "clinical_nih").2.1,
   (C1_parallel_aggregation_isolates_failures okInvoke samplePrefs parseDateModel 1000
      "boom" "clinical_nih").2.2 "regulatory" (by decide)⟩
